import Mathlib

/-!
Shallow embedding of the fakestore MCP server (TypeScript) in Lean 4.

Layers, mirroring the source:
* `src/utils/validators.ts` — pure argument validators;
* `src/utils/api.ts` — the HTTP client wrapper (rate-limit interceptor,
  `handleApiError`, `get`/`post`/`put`/`del`);
* `src/tools/products.ts`, `src/tools/carts.ts`, `src/tools/users.ts` —
  resource modules building requests after validation;
* `src/index.ts` — the dispatcher (`CallToolRequestSchema` handler).

JS numbers are embedded as `ℚ` (all numeric literals in play are exact
decimals; `Number.isInteger v` becomes `v.den = 1`).  A tool function is
embedded as a pure function from its argument record to
`Except String Request`: `Except.ok r` means validation passed and the
HTTP request `r` is issued; `Except.error m` means the function throws
with message `m` before any network call.  Network outcomes are supplied
as explicit oracles where a claim needs them.
-/

namespace FakeStore

/-- JSON values, enough for the request bodies and query parameters the
server constructs.  Object fields are kept in insertion order, matching
how the TypeScript builds each literal. -/
inductive Json where
  | str (s : String)
  | num (q : ℚ)
  | arr (elems : List Json)
  | obj (fields : List (String × Json))
deriving Repr

/-- HTTP methods used by the wrapper (`get`, `post`, `put`, `del`). -/
inductive Method where
  | get
  | post
  | put
  | delete
deriving Repr, DecidableEq

/-- A fully constructed upstream HTTP request: everything the resource
modules hand to the HTTP client wrapper. -/
structure Request where
  method : Method
  path : String
  qparams : List (String × Json)
  body : Option Json
deriving Repr

/-- `Except.ok` means the tool function reached the HTTP wrapper, i.e. a
network call is attempted; `Except.error` means it threw first. -/
def issuesRequest (r : Except String Request) : Bool :=
  match r with
  | .ok _ => true
  | .error _ => false

/-! ## Validators (`src/utils/validators.ts`) -/

/-- Modelled from the spec: the platform string `trim` (not part of this
repository) — strip leading and trailing whitespace. -/
def jsTrim (s : String) : String :=
  String.mk (((s.toList.dropWhile Char.isWhitespace).reverse.dropWhile
    Char.isWhitespace).reverse)

/-- `validatePositiveInteger`: throws unless the value is an integer
greater than zero.  (The `typeof value !== 'number'` disjunct cannot fire
in this typed embedding, where the argument is already a number.) -/
def validatePositiveInteger (value : ℚ) (fieldName : String) : Except String Unit :=
  if value.den = 1 ∧ 0 < value then .ok ()
  else .error (fieldName ++ " must be a positive integer")

/-- `validateSortOrder`: accepts `undefined`, `"asc"` and `"desc"` only. -/
def validateSortOrder (value : Option String) : Except String Unit :=
  match value with
  | none => .ok ()
  | some s =>
      if s = "asc" ∨ s = "desc" then .ok ()
      else .error "Sort order must be \"asc\" or \"desc\""

/-- `validateLimit`: `undefined` passes; otherwise positive integer. -/
def validateLimit (value : Option ℚ) : Except String Unit :=
  match value with
  | none => .ok ()
  | some v =>
      if v.den = 1 ∧ 0 < v then .ok ()
      else .error "Limit must be a positive integer"

/-- `validateString`: non-empty after trimming. -/
def validateString (value : String) (fieldName : String) : Except String Unit :=
  if jsTrim value = "" then .error (fieldName ++ " must be a non-empty string")
  else .ok ()

/-- Does the list have a dot at an index that is neither the first nor the
last position?  This is the shape forced by the tail
`[^\s@]+\.[^\s@]+$` of the email pattern once whitespace and `@` have
been excluded elsewhere. -/
def hasInnerDot (l : List Char) : Bool :=
  (List.range l.length).any fun i =>
    l.getD i ' ' = '.' && 1 ≤ i && i + 2 ≤ l.length

/-- Split a character list at every occurrence of a separator. -/
def splitOnChar (sep : Char) : List Char → List (List Char)
  | [] => [[]]
  | c :: cs =>
      match splitOnChar sep cs, decide (c = sep) with
      | r, true => [] :: r
      | [], false => [[c]]
      | h :: t, false => (c :: h) :: t

/-- The email regular expression `^[^\s@]+@[^\s@]+\.[^\s@]+$` as an
executable matcher: exactly one `@`, no whitespace anywhere, non-empty
local part, and a domain containing an interior dot. -/
def emailMatch (s : String) : Bool :=
  match splitOnChar '@' s.toList with
  | [lpart, domain] =>
      lpart ≠ [] && lpart.all (fun c => !c.isWhitespace) &&
      domain ≠ [] && domain.all (fun c => !c.isWhitespace) &&
      hasInnerDot domain
  | _ => false

/-- `validateEmail`: simple pattern match on the email shape. -/
def validateEmail (value : String) : Except String Unit :=
  if emailMatch value then .ok () else .error "Invalid email format"

/-- Characters allowed unescaped in a URL scheme after the initial
letter. -/
def schemeChar (c : Char) : Bool :=
  c.isAlphanum || c = '+' || c = '-' || c = '.'

/-- Consume scheme characters up to a colon; `none` if a non-scheme
character appears first or the list ends without a colon. -/
def splitScheme : List Char → Option (List Char)
  | [] => none
  | c :: cs =>
      if c = ':' then some []
      else if schemeChar c then (splitScheme cs).map (c :: ·)
      else none

/-- Modelled from the spec: the platform URL constructor used by
`validateUrl` is not part of this repository; per the spec the check is
that the value parses as an absolute URL. We model the parse as scheme
extraction: it succeeds exactly when the string starts with an ASCII
letter followed by scheme characters and a colon, and the resulting
protocol is that scheme, lowercased, with the trailing colon. -/
def urlProtocol (s : String) : Option String :=
  match s.toList with
  | [] => none
  | c :: cs =>
      if c.isAlpha then
        match splitScheme cs with
        | some pre => some (String.mk ((c :: pre).map Char.toLower) ++ ":")
        | none => none
      else none

/-- `validateUrl`: non-empty string, then the URL must parse; a parse
failure, and also a protocol other than http/https (whose throw happens
inside the same `try` and is swallowed by the `catch`), both surface as
the `must be a valid URL` message. -/
def validateUrl (value : String) (fieldName : String) : Except String Unit :=
  if jsTrim value = "" then .error (fieldName ++ " must be a non-empty string")
  else
    match urlProtocol value with
    | some p =>
        if p = "http:" ∨ p = "https:" then .ok ()
        else .error (fieldName ++ " must be a valid URL")
    | none => .error (fieldName ++ " must be a valid URL")

/-- Hex digit characters, uppercase, as produced by
`encodeURIComponent`. -/
def hexDigit (n : ℕ) : Char :=
  (String.toList "0123456789ABCDEF").getD n '0'

/-- UTF-8 bytes of a Unicode scalar value. -/
def utf8Bytes (n : ℕ) : List ℕ :=
  if n < 0x80 then [n]
  else if n < 0x800 then [0xC0 + n / 64, 0x80 + n % 64]
  else if n < 0x10000 then
    [0xE0 + n / 4096, 0x80 + (n / 64) % 64, 0x80 + n % 64]
  else
    [0xF0 + n / 262144, 0x80 + (n / 4096) % 64, 0x80 + (n / 64) % 64,
     0x80 + n % 64]

/-- The characters `encodeURIComponent` leaves unescaped: ASCII
alphanumerics and `-_.!~*'()`. -/
def isUriUnescaped (c : Char) : Bool :=
  c.isAlphanum || c = '-' || c = '_' || c = '.' || c = '!' || c = '~' ||
  c = '*' || c = '\'' || c = '(' || c = ')'

/-- Percent-encode one byte as `%XX` with uppercase hex. -/
def percentByte (b : ℕ) : String :=
  String.mk ['%', hexDigit (b / 16), hexDigit (b % 16)]

/-- Modelled from the spec: the platform `encodeURIComponent` used by
`sanitizePathSegment` is not part of this repository; the spec says the
sanitizer percent-encodes the segment. Unescaped characters pass
through; every other character is replaced by the percent-encoding of
its UTF-8 bytes. -/
def encodeURIComponent (s : String) : String :=
  String.join (s.toList.map fun c =>
    if isUriUnescaped c then String.mk [c]
    else String.join ((utf8Bytes c.toNat).map percentByte))

/-- `sanitizePathSegment`: trim, then `encodeURIComponent`. -/
def sanitizePathSegment (value : String) : String :=
  encodeURIComponent (jsTrim value)

/-! ## Shared request-building helpers -/

/-- JS template-literal rendering of a number into a path.  Every call
site validates the value with `validatePositiveInteger` first, so only
the integer case (`den = 1`, rendered from the numerator) is ever
reached. -/
def jsNumToString (q : ℚ) : String := toString q.num

/-- The `params` record built by the three list operations: a field is
added only when the argument is truthy (`if (limit) ...`), so `0` and
the empty string are skipped — values the validators have already ruled
out when present. -/
def truthyParams (limit : Option ℚ) (sort : Option String) : List (String × Json) :=
  (match limit with
   | some l => if l = 0 then [] else [("limit", Json.num l)]
   | none => []) ++
  (match sort with
   | some s => if s = "" then [] else [("sort", Json.str s)]
   | none => [])

/-- Arguments of the three list operations (`limit?`, `sort?`). -/
structure ListArgs where
  limit : Option ℚ
  sort : Option String

/-- The common body of `getAllProducts` / `getAllCarts` / `getAllUsers`,
which are textually identical up to the request path: validate `limit`
and `sort` when present, then issue a GET with the truthy params. -/
def listResource (path : String) (a : ListArgs) : Except String Request :=
  match (if a.limit.isSome then validateLimit a.limit else .ok ()) with
  | .error e => .error e
  | .ok _ =>
      match (if a.sort.isSome then validateSortOrder a.sort else .ok ()) with
      | .error e => .error e
      | .ok _ => .ok ⟨.get, path, truthyParams a.limit a.sort, none⟩

/-! ## Product tools (`src/tools/products.ts`) -/

/-- `getAllProducts`. -/
def getAllProducts (a : ListArgs) : Except String Request :=
  listResource "/products" a

/-- `getProductById`. -/
def getProductById (id : ℚ) : Except String Request :=
  match validatePositiveInteger id "Product ID" with
  | .error e => .error e
  | .ok _ => .ok ⟨.get, "/products/" ++ jsNumToString id, [], none⟩

/-- `getCategories`. -/
def getCategories : Except String Request :=
  .ok ⟨.get, "/products/categories", [], none⟩

/-- `getProductsByCategory`: rejects a falsy (empty) category, then GETs
the sanitized path. -/
def getProductsByCategory (category : String) : Except String Request :=
  if category = "" then .error "Category must be a non-empty string"
  else .ok ⟨.get, "/products/category/" ++ sanitizePathSegment category, [], none⟩

/-- Arguments of `addProduct`. -/
structure AddProductArgs where
  title : String
  price : ℚ
  description : String
  image : String
  category : String

/-- `addProduct`: checks title, price (> 0), description, image URL and
category in source order, then POSTs a body with exactly the five
supplied fields. -/
def addProduct (a : AddProductArgs) : Except String Request :=
  if a.title = "" then .error "Title must be a non-empty string"
  else if ¬ 0 < a.price then .error "Price must be a positive number"
  else if a.description = "" then .error "Description must be a non-empty string"
  else
    match validateUrl a.image "Image URL" with
    | .error e => .error e
    | .ok _ =>
        if a.category = "" then .error "Category must be a non-empty string"
        else .ok ⟨.post, "/products", [],
          some (.obj [("title", .str a.title), ("price", .num a.price),
                      ("description", .str a.description),
                      ("image", .str a.image),
                      ("category", .str a.category)])⟩

/-- Arguments of `updateProduct`. -/
structure UpdateProductArgs where
  id : ℚ
  title : Option String
  price : Option ℚ
  description : Option String
  image : Option String
  category : Option String

/-- One optional field of a partially built body. -/
def optField (key : String) (v : Option Json) : List (String × Json) :=
  match v with
  | some j => [(key, j)]
  | none => []

/-- `updateProduct`: validates the id, validates the image URL only when
supplied, and PUTs the partial body in source insertion order. -/
def updateProduct (a : UpdateProductArgs) : Except String Request :=
  match validatePositiveInteger a.id "Product ID" with
  | .error e => .error e
  | .ok _ =>
      match (match a.image with
             | some i => validateUrl i "Image URL"
             | none => .ok ()) with
      | .error e => .error e
      | .ok _ =>
          .ok ⟨.put, "/products/" ++ jsNumToString a.id, [],
            some (.obj (optField "title" (a.title.map .str) ++
                        optField "price" (a.price.map .num) ++
                        optField "description" (a.description.map .str) ++
                        optField "image" (a.image.map .str) ++
                        optField "category" (a.category.map .str)))⟩

/-- `deleteProduct`. -/
def deleteProduct (id : ℚ) : Except String Request :=
  match validatePositiveInteger id "Product ID" with
  | .error e => .error e
  | .ok _ => .ok ⟨.delete, "/products/" ++ jsNumToString id, [], none⟩

/-! ## Cart tools (`src/tools/carts.ts`) -/

/-- A `products` array entry (`CartProduct`). -/
structure CartProduct where
  productId : ℚ
  quantity : ℚ
deriving Repr, DecidableEq

/-- JSON rendering of one cart product entry. -/
def cartProductJson (p : CartProduct) : Json :=
  .obj [("productId", .num p.productId), ("quantity", .num p.quantity)]

/-- `getAllCarts`. -/
def getAllCarts (a : ListArgs) : Except String Request :=
  listResource "/carts" a

/-- `getCartById`. -/
def getCartById (id : ℚ) : Except String Request :=
  match validatePositiveInteger id "Cart ID" with
  | .error e => .error e
  | .ok _ => .ok ⟨.get, "/carts/" ++ jsNumToString id, [], none⟩

/-- `getUserCarts`. -/
def getUserCarts (userId : ℚ) : Except String Request :=
  match validatePositiveInteger userId "User ID" with
  | .error e => .error e
  | .ok _ => .ok ⟨.get, "/carts/user/" ++ jsNumToString userId, [], none⟩

/-- Arguments of `addCart`. -/
structure AddCartArgs where
  userId : ℚ
  date : String
  products : List CartProduct

/-- The per-entry loop of `addCart`: each entry needs a positive
*number* for `productId` and `quantity` (note: no integrality check);
the first offending entry throws with its 1-based index. -/
def checkCartProducts (index : ℕ) : List CartProduct → Except String Unit
  | [] => .ok ()
  | p :: rest =>
      if ¬ 0 < p.productId then
        .error ("Product " ++ toString (index + 1) ++ ": productId must be a positive number")
      else if ¬ 0 < p.quantity then
        .error ("Product " ++ toString (index + 1) ++ ": quantity must be a positive number")
      else checkCartProducts (index + 1) rest

/-- `addCart`: positive-integer userId, non-empty date, non-empty
products array, per-entry positive-number checks, then POST. -/
def addCart (a : AddCartArgs) : Except String Request :=
  match validatePositiveInteger a.userId "User ID" with
  | .error e => .error e
  | .ok _ =>
      if a.date = "" then .error "Date must be a non-empty string"
      else if a.products = [] then .error "Products must be a non-empty array"
      else
        match checkCartProducts 0 a.products with
        | .error e => .error e
        | .ok _ =>
            .ok ⟨.post, "/carts", [],
              some (.obj [("userId", .num a.userId), ("date", .str a.date),
                          ("products", .arr (a.products.map cartProductJson))])⟩

/-- Arguments of `updateCart`. -/
structure UpdateCartArgs where
  id : ℚ
  userId : Option ℚ
  date : Option String
  products : Option (List CartProduct)

/-- `updateCart`: validates the id; validates `userId` when supplied;
when `products` is supplied it only checks the array is non-empty — the
entries themselves are not inspected; PUTs the partial body. -/
def updateCart (a : UpdateCartArgs) : Except String Request :=
  match validatePositiveInteger a.id "Cart ID" with
  | .error e => .error e
  | .ok _ =>
      match (match a.userId with
             | some u => validatePositiveInteger u "User ID"
             | none => .ok ()) with
      | .error e => .error e
      | .ok _ =>
          match a.products with
          | some ps =>
              if ps = [] then .error "Products must be a non-empty array"
              else
                .ok ⟨.put, "/carts/" ++ jsNumToString a.id, [],
                  some (.obj (optField "userId" (a.userId.map .num) ++
                              optField "date" (a.date.map .str) ++
                              [("products", .arr (ps.map cartProductJson))]))⟩
          | none =>
              .ok ⟨.put, "/carts/" ++ jsNumToString a.id, [],
                some (.obj (optField "userId" (a.userId.map .num) ++
                            optField "date" (a.date.map .str)))⟩

/-- `deleteCart`. -/
def deleteCart (id : ℚ) : Except String Request :=
  match validatePositiveInteger id "Cart ID" with
  | .error e => .error e
  | .ok _ => .ok ⟨.delete, "/carts/" ++ jsNumToString id, [], none⟩

/-! ## User tools (`src/tools/users.ts`) -/

/-- `getAllUsers`. -/
def getAllUsers (a : ListArgs) : Except String Request :=
  listResource "/users" a

/-- `getUserById`. -/
def getUserById (id : ℚ) : Except String Request :=
  match validatePositiveInteger id "User ID" with
  | .error e => .error e
  | .ok _ => .ok ⟨.get, "/users/" ++ jsNumToString id, [], none⟩

/-- Arguments of `addUser`, flat as in the tool schema. -/
structure AddUserArgs where
  email : String
  username : String
  password : String
  firstname : String
  lastname : String
  city : String
  street : String
  number : ℚ
  zipcode : String
  lat : String
  long : String
  phone : String

/-- `addUser`: only email, username, password, firstname and lastname
are checked (truthiness, i.e. non-empty); the address fields are not
validated at all, and `validateEmail` is never called.  The body nests
`name`, `address` and `geolocation` from the flat arguments. -/
def addUser (a : AddUserArgs) : Except String Request :=
  if a.email = "" then .error "Email must be a non-empty string"
  else if a.username = "" then .error "Username must be a non-empty string"
  else if a.password = "" then .error "Password must be a non-empty string"
  else if a.firstname = "" then .error "First name must be a non-empty string"
  else if a.lastname = "" then .error "Last name must be a non-empty string"
  else .ok ⟨.post, "/users", [],
    some (.obj [("email", .str a.email), ("username", .str a.username),
                ("password", .str a.password),
                ("name", .obj [("firstname", .str a.firstname),
                               ("lastname", .str a.lastname)]),
                ("address", .obj [("city", .str a.city),
                                  ("street", .str a.street),
                                  ("number", .num a.number),
                                  ("zipcode", .str a.zipcode),
                                  ("geolocation", .obj [("lat", .str a.lat),
                                                        ("long", .str a.long)])]),
                ("phone", .str a.phone)])⟩

/-- Arguments of `updateUser`. -/
structure UpdateUserArgs where
  id : ℚ
  email : Option String
  username : Option String
  password : Option String
  firstname : Option String
  lastname : Option String
  city : Option String
  street : Option String
  number : Option ℚ
  zipcode : Option String
  lat : Option String
  long : Option String
  phone : Option String

/-- The `name` sub-object of the `updateUser` body: present only when a
name field was supplied, holding only the supplied fields. -/
def updateUserName (a : UpdateUserArgs) : List (String × Json) :=
  if a.firstname.isSome ∨ a.lastname.isSome then
    [("name", .obj (optField "firstname" (a.firstname.map .str) ++
                    optField "lastname" (a.lastname.map .str)))]
  else []

/-- The `geolocation` sub-object of the `updateUser` address: present
only when `lat` or `long` was supplied. -/
def updateUserGeo (a : UpdateUserArgs) : List (String × Json) :=
  if a.lat.isSome ∨ a.long.isSome then
    [("geolocation", .obj (optField "lat" (a.lat.map .str) ++
                           optField "long" (a.long.map .str)))]
  else []

/-- The `address` sub-object of the `updateUser` body: present only when
one of the six address fields was supplied. -/
def updateUserAddress (a : UpdateUserArgs) : List (String × Json) :=
  if a.city.isSome ∨ a.street.isSome ∨ a.number.isSome ∨ a.zipcode.isSome ∨
     a.lat.isSome ∨ a.long.isSome then
    [("address", .obj (optField "city" (a.city.map .str) ++
                       optField "street" (a.street.map .str) ++
                       optField "number" (a.number.map .num) ++
                       optField "zipcode" (a.zipcode.map .str) ++
                       updateUserGeo a))]
  else []

/-- `updateUser`: validates the id, then PUTs a partial body built in
source insertion order (email, username, password, phone, then the
conditional `name` and `address` sub-objects). -/
def updateUser (a : UpdateUserArgs) : Except String Request :=
  match validatePositiveInteger a.id "User ID" with
  | .error e => .error e
  | .ok _ =>
      .ok ⟨.put, "/users/" ++ jsNumToString a.id, [],
        some (.obj (optField "email" (a.email.map .str) ++
                    optField "username" (a.username.map .str) ++
                    optField "password" (a.password.map .str) ++
                    optField "phone" (a.phone.map .str) ++
                    updateUserName a ++
                    updateUserAddress a))⟩

/-- `deleteUser`. -/
def deleteUser (id : ℚ) : Except String Request :=
  match validatePositiveInteger id "User ID" with
  | .error e => .error e
  | .ok _ => .ok ⟨.delete, "/users/" ++ jsNumToString id, [], none⟩

/-! ## HTTP client wrapper (`src/utils/api.ts`) -/

/-- The normalized error type (`ApiError` in `src/types/fakestore.ts`). -/
structure ApiError where
  message : String
  status : Option ℕ
  code : Option String
deriving Repr, DecidableEq

/-- What a failed axios call can throw, as distinguished by
`handleApiError`: an axios error (with message, optional response
status, optional transport code), a plain JS `Error`, or any other
thrown value. -/
inductive JsError where
  | axiosError (message : String) (status : Option ℕ) (code : Option String)
  | plainError (message : String)
  | nonError
deriving Repr, DecidableEq

/-- `handleApiError`: axios errors keep message (with the
`API request failed` fallback for an empty one), status and code; other
`Error` instances keep their message; anything else becomes
`Unknown error occurred`. -/
def handleApiError : JsError → ApiError
  | .axiosError m st cd => ⟨if m = "" then "API request failed" else m, st, cd⟩
  | .plainError m => ⟨m, none, none⟩
  | .nonError => ⟨"Unknown error occurred", none, none⟩

/-- The try/catch shared by `get`, `post`, `put` and `del`: the awaited
axios outcome (success data or thrown error) is passed explicitly; a
success returns `response.data`, any failure is re-thrown as the
normalized `ApiError`. -/
def requestWrapper {α : Type} (outcome : Except JsError α) : Except ApiError α :=
  match outcome with
  | .ok d => .ok d
  | .error e => .error (handleApiError e)

/-- `get`: endpoint and params as in the source; the network outcome is
the oracle argument. -/
def get {α : Type} (_endpoint : String) (_params : List (String × Json))
    (outcome : Except JsError α) : Except ApiError α :=
  requestWrapper outcome

/-- `post`. -/
def post {α : Type} (_endpoint : String) (_data : Option Json)
    (outcome : Except JsError α) : Except ApiError α :=
  requestWrapper outcome

/-- `put`. -/
def put {α : Type} (_endpoint : String) (_data : Option Json)
    (outcome : Except JsError α) : Except ApiError α :=
  requestWrapper outcome

/-- `del`. -/
def del {α : Type} (_endpoint : String)
    (outcome : Except JsError α) : Except ApiError α :=
  requestWrapper outcome

/-! ## Rate limiting interceptor (`src/utils/api.ts`) -/

/-- `RATE_LIMIT`: requests per minute. -/
def RATE_LIMIT : ℕ := 100

/-- `RATE_LIMIT_WINDOW`: one minute in milliseconds, the delay before a
scheduled decrement fires. -/
def RATE_LIMIT_WINDOW : ℕ := 60000

/-- The module-level mutable state of the interceptor: the current
`requestCount` plus the number of `setTimeout` decrements scheduled but
not yet fired. -/
structure RateState where
  requestCount : ℕ
  pendingDecrements : ℕ
deriving Repr, DecidableEq

/-- The request interceptor as a state transition: increment the
counter; if it now exceeds `RATE_LIMIT`, throw the rate-limit error
(note the decrement is then never scheduled); otherwise schedule a
decrement for `RATE_LIMIT_WINDOW` later and let the request through. -/
def interceptRequest (s : RateState) : RateState × Except String Unit :=
  let c := s.requestCount + 1
  if RATE_LIMIT < c then
    (⟨c, s.pendingDecrements⟩,
     .error ("Rate limit exceeded. Maximum " ++ toString RATE_LIMIT ++
             " requests per minute allowed."))
  else
    (⟨c, s.pendingDecrements + 1⟩, .ok ())

/-- A scheduled decrement firing after its window: decrement the counter
unless it is already zero. -/
def fireDecrement (s : RateState) : RateState :=
  if s.pendingDecrements = 0 then s
  else ⟨s.requestCount - 1, s.pendingDecrements - 1⟩

/-! ## Dispatcher (`src/index.ts`, `CallToolRequestSchema` handler) -/

/-- The registered tool names, in the order the dispatcher tests them. -/
def toolNames : List String :=
  ["fakestore_get_products", "fakestore_get_product",
   "fakestore_get_categories", "fakestore_get_products_by_category",
   "fakestore_add_product", "fakestore_update_product",
   "fakestore_delete_product",
   "fakestore_get_carts", "fakestore_get_cart", "fakestore_get_user_carts",
   "fakestore_add_cart", "fakestore_update_cart", "fakestore_delete_cart",
   "fakestore_get_users", "fakestore_get_user", "fakestore_add_user",
   "fakestore_update_user", "fakestore_delete_user"]

/-- What a tool invocation can throw into the dispatcher's catch: a JS
`Error` (validation failures, the unknown-tool error), the plain
`ApiError` object re-thrown by the HTTP wrapper (which is *not* an
`Error` instance), or any other value. -/
inductive Thrown where
  | errObj (message : String)
  | apiErr (e : ApiError)
  | otherValue
deriving Repr, DecidableEq

/-- `error instanceof Error ? error.message : 'Unknown error occurred'`. -/
def errorMessageOf : Thrown → String
  | .errObj m => m
  | .apiErr _ => "Unknown error occurred"
  | .otherValue => "Unknown error occurred"

/-- The response envelope: a single text content item, plus the
`isError` flag (absent on success in the source, i.e. `false`). -/
structure ToolResponse where
  contentText : String
  isError : Bool
deriving Repr, DecidableEq

/-- The `try` body of the dispatcher.  Each registered name awaits its
tool function and returns the pretty-printed JSON text — every branch
identically, so the awaited outcome is abstracted as `run`; an
unregistered name falls through every branch and throws
`Unknown tool: <name>`. -/
def callToolBody (name : String) (run : String → Except Thrown String) :
    Except Thrown String :=
  if name ∈ toolNames then run name
  else .error (.errObj ("Unknown tool: " ++ name))

/-- The whole `CallToolRequestSchema` handler: the `try` body wrapped in
the catch that converts any thrown value into an error envelope. -/
def handleCallToolRequest (name : String) (run : String → Except Thrown String) :
    ToolResponse :=
  match callToolBody name run with
  | .ok text => ⟨text, false⟩
  | .error t => ⟨"Error: " ++ errorMessageOf t, true⟩

/-! ## Theorems -/

/-- C5: `getProductsByCategory` with category `electronics/accessories`
percent-encodes the slash, so the request path is
`/products/category/electronics%2Faccessories`. -/
theorem getProductsByCategory_percent_encodes_slash :
    getProductsByCategory "electronics/accessories" =
      .ok ⟨.get, "/products/category/electronics%2Faccessories", [], none⟩ := by
  rfl

/-- C7: sort-order validation succeeds exactly when the value is absent
or one of the two tokens `asc` and `desc`, and every other string —
including case variants — fails with the sort-order error. -/
theorem validateSortOrder_exactly_two_tokens :
    (∀ v : Option String, validateSortOrder v = .ok () ↔
        v = none ∨ v = some "asc" ∨ v = some "desc") ∧
    (∀ s : String, s ≠ "asc" → s ≠ "desc" →
        validateSortOrder (some s) =
          .error "Sort order must be \"asc\" or \"desc\"") := by
  constructor
  · intro v
    cases v with
    | none => simp [validateSortOrder]
    | some s =>
        by_cases h : s = "asc" ∨ s = "desc"
        · simp only [validateSortOrder, if_pos h]
          simp only [Option.some.injEq, true_iff]
          rcases h with h | h <;> simp [h]
        · simp only [validateSortOrder, if_neg h]
          push_neg at h
          simp [h.1, h.2]
  · intro s h1 h2
    simp [validateSortOrder, h1, h2]

/-- The witness for C7 at concrete inputs: the case variants `ASC` and
`Desc` are rejected, the lowercase token is accepted. -/
theorem validateSortOrder_exactly_two_tokens_witness :
    validateSortOrder (some "ASC") =
      .error "Sort order must be \"asc\" or \"desc\"" ∧
    validateSortOrder (some "Desc") =
      .error "Sort order must be \"asc\" or \"desc\"" ∧
    validateSortOrder (some "asc") = .ok () :=
  ⟨validateSortOrder_exactly_two_tokens.2 "ASC" (by decide) (by decide),
   validateSortOrder_exactly_two_tokens.2 "Desc" (by decide) (by decide),
   (validateSortOrder_exactly_two_tokens.1 (some "asc")).mpr
     (Or.inr (Or.inl rfl))⟩

/-- C8: the rate-limit interceptor increments the in-process counter on
every attempt; the request goes through exactly when the incremented
counter stays within `RATE_LIMIT`; a forwarded request schedules one
decrement for after the window; with the counter at or above the cap the
attempt fails with the rate-limit error; a scheduled decrement, when it
fires, lowers the counter by one. -/
theorem rateLimiter_soft_cap :
    ∀ s : RateState,
      (interceptRequest s).1.requestCount = s.requestCount + 1 ∧
      ((interceptRequest s).2 = .ok () ↔ s.requestCount + 1 ≤ RATE_LIMIT) ∧
      ((interceptRequest s).2 = .ok () →
        (interceptRequest s).1.pendingDecrements = s.pendingDecrements + 1) ∧
      (RATE_LIMIT ≤ s.requestCount →
        (interceptRequest s).2 =
          .error "Rate limit exceeded. Maximum 100 requests per minute allowed.") ∧
      (∀ t : RateState, 0 < t.pendingDecrements →
        fireDecrement t = ⟨t.requestCount - 1, t.pendingDecrements - 1⟩) := by
  intro s
  refine ⟨?_, ?_, ?_, ?_, ?_⟩
  · simp only [interceptRequest]
    split <;> rfl
  · simp only [interceptRequest]
    split <;> rename_i h <;> simp <;> omega
  · simp only [interceptRequest]
    split <;> simp
  · intro hge
    have h : RATE_LIMIT < s.requestCount + 1 := by omega
    simp only [interceptRequest, if_pos h]
    rfl
  · intro t ht
    have h0 : t.pendingDecrements ≠ 0 := by omega
    simp [fireDecrement, h0]

/-- The witness for C8: with the counter at 150 the attempt is rejected
with the rate-limit message; from a fresh state the request goes
through and schedules a decrement; a pending decrement fires. -/
theorem rateLimiter_soft_cap_witness :
    (interceptRequest ⟨150, 0⟩).2 =
      .error "Rate limit exceeded. Maximum 100 requests per minute allowed." ∧
    (interceptRequest ⟨0, 0⟩).2 = .ok () ∧
    (interceptRequest ⟨0, 0⟩).1.pendingDecrements = 1 ∧
    fireDecrement ⟨5, 2⟩ = ⟨4, 1⟩ :=
  ⟨(rateLimiter_soft_cap ⟨150, 0⟩).2.2.2.1 (by decide),
   (rateLimiter_soft_cap ⟨0, 0⟩).2.1.mpr (by decide),
   (rateLimiter_soft_cap ⟨0, 0⟩).2.2.1
     ((rateLimiter_soft_cap ⟨0, 0⟩).2.1.mpr (by decide)),
   (rateLimiter_soft_cap ⟨150, 0⟩).2.2.2.2 ⟨5, 2⟩ (by decide)⟩

/-- C9: each wrapper operation returns the parsed body on success and
otherwise throws exactly the normalized `ApiError` produced by
`handleApiError`; an axios failure keeps its upstream status and
transport code and always carries a non-empty message (with the
`API request failed` fallback), a plain `Error` keeps its message, and
any other thrown value becomes `Unknown error occurred` — so the raw
transport exception shape never reaches the caller. -/
theorem httpWrapper_normalizes_failures :
    ∀ (α : Type) (endpoint : String) (params : List (String × Json))
      (bodyData : Option Json) (outcome : Except JsError α),
      (get endpoint params outcome = requestWrapper outcome ∧
       post endpoint bodyData outcome = requestWrapper outcome ∧
       put endpoint bodyData outcome = requestWrapper outcome ∧
       del endpoint outcome = requestWrapper outcome) ∧
      ((∃ d, outcome = .ok d ∧ requestWrapper outcome = .ok d) ∨
       (∃ e, outcome = .error e ∧
         requestWrapper outcome = .error (handleApiError e))) ∧
      (∀ (m : String) (st : Option ℕ) (cd : Option String),
        (handleApiError (.axiosError m st cd)).status = st ∧
        (handleApiError (.axiosError m st cd)).code = cd ∧
        (handleApiError (.axiosError m st cd)).message ≠ "") ∧
      (∀ m : String, (handleApiError (.plainError m)).message = m ∧
        (handleApiError (.plainError m)).status = none ∧
        (handleApiError (.plainError m)).code = none) ∧
      (handleApiError .nonError).message = "Unknown error occurred" := by
  intro α endpoint params bodyData outcome
  refine ⟨⟨rfl, rfl, rfl, rfl⟩, ?_, ?_, ?_, rfl⟩
  · cases outcome with
    | ok d => exact Or.inl ⟨d, rfl, rfl⟩
    | error e => exact Or.inr ⟨e, rfl, rfl⟩
  · intro m st cd
    refine ⟨rfl, rfl, ?_⟩
    by_cases hm : m = ""
    · simp [handleApiError, hm]
    · simp [handleApiError, hm]
  · intro m
    exact ⟨rfl, rfl, rfl⟩

/-- A string starting with the `Error: ` prefix is never empty. -/
lemma errorPrefix_ne_empty (s : String) : "Error: " ++ s ≠ "" := by
  intro h
  cases s with
  | mk l =>
      have h2 : ('E' :: 'r' :: 'r' :: 'o' :: 'r' :: ':' :: ' ' :: l) =
          ([] : List Char) := congrArg String.data h
      simp at h2

/-- C2: the dispatcher always returns a response envelope: the `isError`
flag is set exactly when the tool body threw, every thrown value — from
validation, routing, transport or the upstream — becomes the
`Error: `-prefixed text of the converted message, and that text is never
empty.  No exception leaves `handleCallToolRequest`, which is a total
function of the invocation. -/
theorem dispatcher_error_envelope :
    ∀ (name : String) (run : String → Except Thrown String),
      ((handleCallToolRequest name run).isError = true ↔
        ∃ t, callToolBody name run = .error t) ∧
      (∀ t, callToolBody name run = .error t →
        handleCallToolRequest name run = ⟨"Error: " ++ errorMessageOf t, true⟩) ∧
      ((handleCallToolRequest name run).isError = true →
        (handleCallToolRequest name run).contentText ≠ "") := by
  intro name run
  cases h : callToolBody name run with
  | ok text =>
      refine ⟨?_, ?_, ?_⟩
      · simp [handleCallToolRequest, h]
      · intro t ht
        exact Except.noConfusion ht
      · simp [handleCallToolRequest, h]
  | error t =>
      refine ⟨?_, ?_, ?_⟩
      · simp [handleCallToolRequest, h]
      · intro t' ht'
        injection ht' with h2
        subst h2
        simp [handleCallToolRequest, h]
      · intro _
        simp only [handleCallToolRequest, h]
        exact errorPrefix_ne_empty (errorMessageOf t)

/-- The witness for C2: a registered tool whose invocation throws the
wrapper's normalized `ApiError` for an upstream 500 — the caller still
receives an envelope with `isError` true and a non-empty message. -/
theorem dispatcher_error_envelope_witness :
    handleCallToolRequest "fakestore_get_products"
        (fun _ => .error (.apiErr ⟨"Request failed with status code 500", some 500, none⟩)) =
      ⟨"Error: Unknown error occurred", true⟩ ∧
    (handleCallToolRequest "fakestore_get_products"
        (fun _ => .error (.apiErr ⟨"Request failed with status code 500", some 500, none⟩))).contentText ≠ "" :=
  ⟨(dispatcher_error_envelope "fakestore_get_products"
      (fun _ => .error (.apiErr ⟨"Request failed with status code 500", some 500, none⟩))).2.1
      (.apiErr ⟨"Request failed with status code 500", some 500, none⟩) (by rfl),
   (dispatcher_error_envelope "fakestore_get_products"
      (fun _ => .error (.apiErr ⟨"Request failed with status code 500", some 500, none⟩))).2.2
      (by rfl)⟩

/-- C3: an invocation whose name matches none of the registered tools
throws `Unknown tool: <name>` inside the `try`, and the dispatcher
converts it into an error envelope whose text is that message behind the
`Error: ` prefix — nothing propagates past the handler. -/
theorem dispatcher_unknown_tool :
    ∀ (name : String) (run : String → Except Thrown String),
      name ∉ toolNames →
      callToolBody name run = .error (.errObj ("Unknown tool: " ++ name)) ∧
      handleCallToolRequest name run =
        ⟨"Error: " ++ ("Unknown tool: " ++ name), true⟩ := by
  intro name run h
  refine ⟨?_, ?_⟩
  · simp [callToolBody, h]
  · simp [handleCallToolRequest, callToolBody, h, errorMessageOf]

/-- The witness for C3 at the unregistered name `fakestore_nope`. -/
theorem dispatcher_unknown_tool_witness :
    handleCallToolRequest "fakestore_nope" (fun _ => .ok "ignored") =
      ⟨"Error: " ++ ("Unknown tool: " ++ "fakestore_nope"), true⟩ :=
  (dispatcher_unknown_tool "fakestore_nope" (fun _ => .ok "ignored")
    (by decide)).2

/-- C4: `addProduct` rejects price `0` and price `-5` with the price
validation error before any request is built; with price `19.99` and
valid title, description, image and category it issues the create call
whose body holds exactly the five supplied fields, in source order, and
nothing else. -/
theorem addProduct_price_validation_and_body :
    ∀ (t d i c : String), t ≠ "" → d ≠ "" →
      validateUrl i "Image URL" = .ok () → c ≠ "" →
      addProduct ⟨t, 0, d, i, c⟩ = .error "Price must be a positive number" ∧
      addProduct ⟨t, -5, d, i, c⟩ = .error "Price must be a positive number" ∧
      addProduct ⟨t, (19.99 : ℚ), d, i, c⟩ =
        .ok ⟨.post, "/products", [],
          some (.obj [("title", .str t), ("price", .num (19.99 : ℚ)),
                      ("description", .str d), ("image", .str i),
                      ("category", .str c)])⟩ := by
  intro t d i c ht hd hi hc
  refine ⟨?_, ?_, ?_⟩
  · simp only [addProduct, if_neg ht]
    rw [if_pos (by norm_num : ¬ (0 : ℚ) < 0)]
  · simp only [addProduct, if_neg ht]
    rw [if_pos (by norm_num : ¬ (0 : ℚ) < -5)]
  · simp only [addProduct, if_neg ht, if_neg hd, if_neg hc]
    rw [if_neg (by norm_num : ¬ ¬ (0 : ℚ) < 19.99), hi]

/-- The witness for C4 at concrete valid strings. -/
theorem addProduct_price_validation_and_body_witness :
    addProduct ⟨"Shirt", 0, "Nice", "https://example.com/a.png", "clothing"⟩ =
      .error "Price must be a positive number" ∧
    addProduct ⟨"Shirt", -5, "Nice", "https://example.com/a.png", "clothing"⟩ =
      .error "Price must be a positive number" ∧
    addProduct ⟨"Shirt", (19.99 : ℚ), "Nice", "https://example.com/a.png", "clothing"⟩ =
      .ok ⟨.post, "/products", [],
        some (.obj [("title", .str "Shirt"), ("price", .num (19.99 : ℚ)),
                    ("description", .str "Nice"),
                    ("image", .str "https://example.com/a.png"),
                    ("category", .str "clothing")])⟩ :=
  addProduct_price_validation_and_body "Shirt" "Nice" "https://example.com/a.png"
    "clothing" (by decide) (by decide) (by rfl) (by decide)

/-- C6: `updateUser` with a valid id and only `firstname` supplied
builds the partial body containing the nested `name.firstname` and
nothing else: no `name.lastname`, no `address`, no `geolocation`. -/
theorem updateUser_firstname_only_partial_body :
    ∀ (q : ℚ) (f : String), q.den = 1 → 0 < q →
      updateUser ⟨q, none, none, none, some f, none, none, none, none,
                  none, none, none, none⟩ =
        .ok ⟨.put, "/users/" ++ jsNumToString q, [],
          some (.obj [("name", .obj [("firstname", .str f)])])⟩ := by
  intro q f h1 h2
  simp [updateUser, validatePositiveInteger, h1, h2, updateUserName,
    updateUserAddress, updateUserGeo, optField]

/-- The witness for C6 at id `1` and firstname `Ada`. -/
theorem updateUser_firstname_only_partial_body_witness :
    updateUser ⟨1, none, none, none, some "Ada", none, none, none, none,
                none, none, none, none⟩ =
      .ok ⟨.put, "/users/" ++ jsNumToString 1, [],
        some (.obj [("name", .obj [("firstname", .str "Ada")])])⟩ :=
  updateUser_firstname_only_partial_body 1 "Ada" (by decide) (by decide)

/-- C10: `addUser` succeeds for every non-empty email string — only
truthiness is checked, no format — and issues the create call, while the
unused `validateEmail` of the validators module would reject a malformed
address like `not-an-email`. -/
theorem addUser_ignores_email_format :
    (∀ a : AddUserArgs, a.email ≠ "" → a.username ≠ "" → a.password ≠ "" →
        a.firstname ≠ "" → a.lastname ≠ "" →
        ∃ req, addUser a = .ok req ∧ req.method = .post ∧ req.path = "/users") ∧
    validateEmail "not-an-email" = .error "Invalid email format" := by
  refine ⟨?_, by rfl⟩
  intro a h1 h2 h3 h4 h5
  simp only [addUser, if_neg h1, if_neg h2, if_neg h3, if_neg h4, if_neg h5]
  exact ⟨_, rfl, rfl, rfl⟩

/-- The witness for C10: the format-invalid email `not-an-email` is
accepted by `addUser` and a create request is issued. -/
theorem addUser_ignores_email_format_witness :
    ∃ req, addUser ⟨"not-an-email", "jd", "pw", "Jo", "Do", "c", "s", 1,
                    "z", "0", "0", "p"⟩ = .ok req ∧
      req.method = .post ∧ req.path = "/users" :=
  addUser_ignores_email_format.1
    ⟨"not-an-email", "jd", "pw", "Jo", "Do", "c", "s", 1, "z", "0", "0", "p"⟩
    (by decide) (by decide) (by decide) (by decide) (by decide)

/-- An invalid positive-integer argument produces the validator error. -/
lemma validatePositiveInteger_error {q : ℚ} {fn : String}
    (h : ¬(q.den = 1 ∧ 0 < q)) :
    validatePositiveInteger q fn = .error (fn ++ " must be a positive integer") := by
  simp [validatePositiveInteger, h]

/-- An invalid supplied limit produces the limit error. -/
lemma validateLimit_error {q : ℚ} (h : ¬(q.den = 1 ∧ 0 < q)) :
    validateLimit (some q) = .error "Limit must be a positive integer" := by
  simp [validateLimit, h]

/-- The per-entry cart loop passes exactly when every entry has positive
`productId` and `quantity` (integrality is not part of the check). -/
lemma checkCartProducts_ok_iff (i : ℕ) (ps : List CartProduct) :
    checkCartProducts i ps = .ok () ↔
      ∀ p ∈ ps, 0 < p.productId ∧ 0 < p.quantity := by
  induction ps generalizing i with
  | nil => simp [checkCartProducts]
  | cons p rest ih =>
      by_cases h1 : 0 < p.productId
      · by_cases h2 : 0 < p.quantity
        · simp [checkCartProducts, h1, h2, ih]
        · simp [checkCartProducts, h1, h2]
      · simp [checkCartProducts, h1]

/-- The counterexample to C1 as stated: `addCart` forwards a products
entry whose `productId` is the non-integer `5/2` (the per-entry check
only requires a positive number), and `updateCart` forwards a products
entry with `productId = -3` and `quantity = 0` (entries are not
inspected at all) — in both cases a network call is issued instead of a
validation failure. -/
theorem cart_entry_validation_counterexample :
    issuesRequest (addCart ⟨1, "2024-01-01", [⟨Rat.mk' 5 2, 1⟩]⟩) = true ∧
    (Rat.mk' 5 2).den ≠ 1 ∧ (0 : ℚ) < Rat.mk' 5 2 ∧
    issuesRequest (updateCart ⟨1, none, none, some [⟨-3, 0⟩]⟩) = true :=
  ⟨by rfl, by decide, by decide, by rfl⟩

/-- C1 amended: non-positive-integer values for every `id`, `userId` and
`limit` argument fail validation before a network call — but the
products entries of `addCart` are only checked to be positive numbers
(non-integers are accepted and forwarded), and `updateCart` checks only
that a supplied products array is non-empty, never its entries. -/
theorem positive_integer_validation_amended :
    (∀ (q : ℚ) (fn : String), ¬(q.den = 1 ∧ 0 < q) →
        validatePositiveInteger q fn =
          .error (fn ++ " must be a positive integer")) ∧
    (∀ q : ℚ, ¬(q.den = 1 ∧ 0 < q) →
        validateLimit (some q) = .error "Limit must be a positive integer") ∧
    (∀ q : ℚ, ¬(q.den = 1 ∧ 0 < q) →
        issuesRequest (getProductById q) = false ∧
        issuesRequest (deleteProduct q) = false ∧
        issuesRequest (getCartById q) = false ∧
        issuesRequest (getUserCarts q) = false ∧
        issuesRequest (deleteCart q) = false ∧
        issuesRequest (getUserById q) = false ∧
        issuesRequest (deleteUser q) = false) ∧
    (∀ a : UpdateProductArgs, ¬(a.id.den = 1 ∧ 0 < a.id) →
        issuesRequest (updateProduct a) = false) ∧
    (∀ a : UpdateCartArgs, ¬(a.id.den = 1 ∧ 0 < a.id) →
        issuesRequest (updateCart a) = false) ∧
    (∀ (a : UpdateCartArgs) (u : ℚ), a.userId = some u →
        ¬(u.den = 1 ∧ 0 < u) → issuesRequest (updateCart a) = false) ∧
    (∀ a : UpdateUserArgs, ¬(a.id.den = 1 ∧ 0 < a.id) →
        issuesRequest (updateUser a) = false) ∧
    (∀ a : AddCartArgs, ¬(a.userId.den = 1 ∧ 0 < a.userId) →
        issuesRequest (addCart a) = false) ∧
    (∀ (path : String) (a : ListArgs) (q : ℚ), a.limit = some q →
        ¬(q.den = 1 ∧ 0 < q) → issuesRequest (listResource path a) = false) ∧
    (∀ a : AddCartArgs, issuesRequest (addCart a) = true →
        ∀ p ∈ a.products, 0 < p.productId ∧ 0 < p.quantity) ∧
    (∀ (id : ℚ) (ps : List CartProduct), id.den = 1 → 0 < id → ps ≠ [] →
        issuesRequest (updateCart ⟨id, none, none, some ps⟩) = true) := by
  refine ⟨fun q fn h => validatePositiveInteger_error h,
          fun q h => validateLimit_error h, ?_, ?_, ?_, ?_, ?_, ?_, ?_, ?_, ?_⟩
  · intro q h
    refine ⟨?_, ?_, ?_, ?_, ?_, ?_, ?_⟩ <;>
      simp [getProductById, deleteProduct, getCartById, getUserCarts,
        deleteCart, getUserById, deleteUser,
        validatePositiveInteger_error h, issuesRequest]
  · intro a h
    simp [updateProduct, validatePositiveInteger_error h, issuesRequest]
  · intro a h
    simp [updateCart, validatePositiveInteger_error h, issuesRequest]
  · intro a u ha h
    cases h1 : validatePositiveInteger a.id "Cart ID" with
    | error e => simp [updateCart, h1, issuesRequest]
    | ok _ =>
        simp [updateCart, h1, ha, validatePositiveInteger_error h,
          issuesRequest]
  · intro a h
    simp [updateUser, validatePositiveInteger_error h, issuesRequest]
  · intro a h
    simp [addCart, validatePositiveInteger_error h, issuesRequest]
  · intro path a q ha h
    simp [listResource, ha, validateLimit_error h, issuesRequest]
  · intro a hok p hp
    cases h1 : validatePositiveInteger a.userId "User ID" with
    | error e => simp [addCart, h1, issuesRequest] at hok
    | ok _ =>
        by_cases hd : a.date = ""
        · simp [addCart, h1, hd, issuesRequest] at hok
        · by_cases hps : a.products = []
          · simp [addCart, h1, hd, hps, issuesRequest] at hok
          · cases h2 : checkCartProducts 0 a.products with
            | error e => simp [addCart, h1, hd, hps, h2, issuesRequest] at hok
            | ok u =>
                cases u
                exact (checkCartProducts_ok_iff 0 a.products).mp h2 p hp
  · intro id ps h1 h2 hne
    simp [updateCart, validatePositiveInteger, h1, h2, hne, issuesRequest]

/-- The witness for the amended C1, exercising each conjunct at concrete
inputs: the non-integer `5/2` and the non-positive `0` are rejected for
id and limit fields across the operations, an issued `addCart` really
had positive entries, and `updateCart` forwards unvalidated entries. -/
theorem positive_integer_validation_amended_witness :
    validatePositiveInteger (Rat.mk' 5 2) "Product ID" =
      .error "Product ID must be a positive integer" ∧
    validateLimit (some 0) = .error "Limit must be a positive integer" ∧
    issuesRequest (getProductById 0) = false ∧
    issuesRequest (updateProduct ⟨0, none, none, none, none, none⟩) = false ∧
    issuesRequest (updateCart ⟨0, none, none, none⟩) = false ∧
    issuesRequest (updateCart ⟨1, some 0, none, none⟩) = false ∧
    issuesRequest (updateUser ⟨0, none, none, none, none, none, none, none,
                               none, none, none, none, none⟩) = false ∧
    issuesRequest (addCart ⟨0, "2024-01-01", [⟨1, 1⟩]⟩) = false ∧
    issuesRequest (listResource "/products" ⟨some 0, none⟩) = false ∧
    (∀ p ∈ ([⟨2, 3⟩] : List CartProduct), 0 < p.productId ∧ 0 < p.quantity) ∧
    issuesRequest (updateCart ⟨1, none, none, some [⟨-3, 0⟩]⟩) = true := by
  obtain ⟨h1, h2, h3, h4, h5, h6, h7, h8, h9, h10, h11⟩ :=
    positive_integer_validation_amended
  exact ⟨h1 (Rat.mk' 5 2) "Product ID" (by decide),
         h2 0 (by decide),
         (h3 0 (by decide)).1,
         h4 ⟨0, none, none, none, none, none⟩ (by decide),
         h5 ⟨0, none, none, none⟩ (by decide),
         h6 ⟨1, some 0, none, none⟩ 0 rfl (by decide),
         h7 ⟨0, none, none, none, none, none, none, none, none, none, none,
             none, none⟩ (by decide),
         h8 ⟨0, "2024-01-01", [⟨1, 1⟩]⟩ (by decide),
         h9 "/products" ⟨some 0, none⟩ 0 rfl (by decide),
         h10 ⟨1, "2024-01-01", [⟨2, 3⟩]⟩ (by rfl),
         h11 1 [⟨-3, 0⟩] (by decide) (by decide) (by decide)⟩

end FakeStore
